import Mathlib

/-!
# Verification of the Theseus `std::sys` blocking synchronization primitives

Shallow embedding of `library/std/src/sys/theseus/locks/{mutex,condvar,rwlock}.rs`.

Tasks are identified by opaque handles, modelled as `Nat` (the primitives
only store and compare task handles; they never inspect them).  Each
primitive's spinlock-protected state is modelled as a plain value, and every
operation is the pure state transformer the Rust code performs while holding
that spinlock; the scheduler side effects (`task.block()`, `task.unblock()`)
are returned as data (which tasks were blocked / woken).  A Rust `panic!`
(or a `Vec` bounds-check failure) is modelled as `Except.error` / `none`.
-/

namespace Theseus

/-! ## Mutex (`mutex.rs`) -/

namespace Mutex

/-- `struct State { is_locked: bool, queue: Vec<&'static TaskRef> }` —
the spinlock-protected inner state of the mutex.  `queue` holds the tasks
blocked waiting to acquire, in FIFO arrival order. -/
structure State where
  is_locked : Bool
  queue : List Nat
deriving Repr, DecidableEq

/-- `Vec::remove(0)`: removes and returns the first element.  Panics
(bounds-check failure) on an empty vector, modelled as `Except.error`. -/
def removeFront : List Nat → Except String (Nat × List Nat)
  | [] => .error "removal index out of bounds"
  | t :: ts => .ok (t, ts)

/-- `Mutex::unlock`, the state transformer performed under the spinlock
(and preemption guard): if the queue is empty, clear `is_locked`;
otherwise `queue.remove(0)` and `task.unblock()` the removed task.
The `remove(0)` of a non-empty vector is its head/tail split.  The second
component is the task that was unblocked, if any. -/
def unlock (s : State) : State × Option Nat :=
  match s.queue with
  | [] => ({ s with is_locked := false }, none)
  | t :: ts => ({ s with queue := ts }, some t)

/-- `Mutex::unlock` with the `Vec::remove` bounds check (its only panic
site) made explicit, exactly as the source performs it: the `is_empty`
test guards the `remove(0)` call. -/
def unlockChecked (s : State) : Except String (State × Option Nat) :=
  if s.queue.isEmpty then
    .ok ({ s with is_locked := false }, none)
  else
    match removeFront s.queue with
    | .error e => .error e
    | .ok (t, ts) => .ok ({ s with queue := ts }, some t)

/-- `Mutex::try_lock`, the state transformer performed under the spinlock:
if `is_locked`, return `false` leaving the state as it was; otherwise set
`is_locked` and return `true`.  It never calls `block` and never touches
`queue`. -/
def try_lock (s : State) : Bool × State :=
  if s.is_locked then
    (false, s)
  else
    (true, { s with is_locked := true })

/-- `Mutex::lock` by task `t`, the state transformer performed under the
spinlock: fast path — if not locked, set `is_locked` and return
(`true` = acquired immediately); slow path — push `t` onto `queue` and mark
`t` blocked (`false` = the caller suspends; it resumes holding the lock once
an `unlock` removes it from the queue). -/
def lock (t : Nat) (s : State) : Bool × State :=
  if s.is_locked then
    (false, { s with queue := s.queue ++ [t] })
  else
    (true, { s with is_locked := true })

end Mutex

/-! ## Claims about the Mutex -/

/-- C3: `Mutex::unlock` with an empty queue sets `is_locked := false`; with a
non-empty queue it removes exactly the head (the oldest waiter), unblocks
that task, and leaves `is_locked` unchanged — ownership transfers directly
without `is_locked` ever being cleared. -/
theorem mutex_unlock_transfers_to_head (s : Mutex.State) :
    (s.queue = [] → Mutex.unlock s = ({ s with is_locked := false }, none)) ∧
    (∀ t ts, s.queue = t :: ts →
      Mutex.unlock s = ({ s with queue := ts }, some t) ∧
      ({ s with queue := ts } : Mutex.State).is_locked = s.is_locked) := by
  constructor
  · intro h
    simp [Mutex.unlock, h]
  · intro t ts h
    exact ⟨by simp [Mutex.unlock, h], rfl⟩

/-- Witness for C3 at a concrete state: unlocking `{is_locked := true,
queue := [5, 7]}` pops the oldest waiter `5` and keeps `is_locked = true`. -/
theorem mutex_unlock_transfers_to_head_witness :
    Mutex.unlock ⟨true, [5, 7]⟩ = (⟨true, [7]⟩, some 5) ∧
    (⟨true, [7]⟩ : Mutex.State).is_locked = (⟨true, [5, 7]⟩ : Mutex.State).is_locked :=
  (mutex_unlock_transfers_to_head ⟨true, [5, 7]⟩).2 5 [7] rfl

/-- C8: `Mutex::try_lock` returns `true` iff the mutex was unlocked at the
call, in which case it sets `is_locked`; when it returns `false` the state
is entirely unchanged; in both cases the wait queue is untouched and no
task is blocked. -/
theorem mutex_try_lock_spec (s : Mutex.State) :
    ((Mutex.try_lock s).1 = true ↔ s.is_locked = false) ∧
    ((Mutex.try_lock s).1 = true →
      (Mutex.try_lock s).2 = { s with is_locked := true }) ∧
    ((Mutex.try_lock s).1 = false → (Mutex.try_lock s).2 = s) ∧
    (Mutex.try_lock s).2.queue = s.queue := by
  unfold Mutex.try_lock
  by_cases h : s.is_locked <;> simp [h]

/-- Witness for C8 at a concrete state: `try_lock` on an unlocked mutex with
a (stale) waiter queue `[9]` succeeds, locks it, and leaves the queue alone. -/
theorem mutex_try_lock_spec_witness :
    (Mutex.try_lock ⟨false, [9]⟩).1 = true ∧
    (Mutex.try_lock ⟨false, [9]⟩).2 = ⟨true, [9]⟩ :=
  ⟨(mutex_try_lock_spec ⟨false, [9]⟩).1.mpr rfl,
   (mutex_try_lock_spec ⟨false, [9]⟩).2.1 ((mutex_try_lock_spec ⟨false, [9]⟩).1.mpr rfl)⟩

/-- C10: `Mutex::unlock` is total and never panics — its only panic site,
the `Vec::remove` bounds check, is unreachable because `remove(0)` is
guarded by `!queue.is_empty()` — so the bounds-checked unlock always
returns `ok` of the plain transformer.  Calling it on an already-unlocked
mutex with an empty queue is a benign no-op: the state stays unlocked with
an empty queue and no task is woken. -/
theorem mutex_unlock_total_and_benign :
    (∀ s : Mutex.State, Mutex.unlockChecked s = .ok (Mutex.unlock s)) ∧
    Mutex.unlock ⟨false, []⟩ = (⟨false, []⟩, none) := by
  constructor
  · intro s
    cases h : s.queue with
    | nil => simp [Mutex.unlockChecked, Mutex.unlock, h]
    | cons t ts => simp [Mutex.unlockChecked, Mutex.unlock, Mutex.removeFront, h]
  · rfl

/-! ## Condition variable (`condvar.rs`) -/

namespace Condvar

/-- `Condvar::notify_one`, the queue effect performed under the queue
spinlock and the `atomic_unlock_and_block` guard: if the queue is
non-empty, `queue.remove(0)` and `task.unblock()` it, returning `true`;
otherwise return `false`.  Result: (return value, unblocked task, new
queue). -/
def notify_one : List Nat → Bool × Option Nat × List Nat
  | [] => (false, none, [])
  | t :: ts => (true, some t, ts)

/-- `Condvar::notify_all`, the queue effect performed under the same two
locks: `for task in queue.drain(..) { task.unblock() }` — the drain loop,
one element per iteration, front first.  Result: (tasks unblocked in
iteration order, queue left behind by the drain). -/
def notify_all : List Nat → List Nat × List Nat
  | [] => ([], [])
  | t :: ts =>
    let r := notify_all ts
    (t :: r.1, r.2)

/-- `Condvar::wait_timeout` is `todo!()` in the source: it unconditionally
panics before doing anything with the mutex, the duration, or the queue.
A panic is a computation with no normal result, modelled as `none`; the
`Option Bool` result type stands for the declared `-> bool`. -/
def wait_timeout (_m : Mutex.State) (_queue : List Nat) (_dur : Nat) : Option Bool :=
  none

/-! ### The `wait` sequence

`Condvar::wait` interleaves four pieces of state: the condvar's own queue,
the `atomic_unlock_and_block` spinlock, the associated mutex, and the
scheduler's blocked-task set.  `Sys` bundles them; each source statement of
`wait` becomes one step that also emits the event it performs, and `wait`
is their composition in source order.  The cooperative suspension point
(`yield_now`) splits the function: `wait_enter` is everything up to and
including the yield, `wait_resume` is the re-acquisition of the mutex that
runs once another task has unblocked the waiter. -/

/-- The observable steps `Condvar::wait` performs, in order. -/
inductive Ev where
  | pushQueue (t : Nat)
  | acquireGuard
  | unlockMutex
  | blockTask (t : Nat)
  | releaseGuard
  | yieldNow
  | lockMutex
deriving Repr, DecidableEq

/-- Combined state for `Condvar::wait`: the condvar queue, the
`atomic_unlock_and_block` spinlock, the associated mutex's state, and the
scheduler's set of blocked tasks. -/
structure Sys where
  cvQueue : List Nat
  guardHeld : Bool
  mutex : Mutex.State
  blocked : List Nat
deriving Repr, DecidableEq

/-- `queue.push(current_task)` (under the queue spinlock, then dropped). -/
def pushSelf (t : Nat) (s : Sys) : Sys × List Ev :=
  ({ s with cvQueue := s.cvQueue ++ [t] }, [.pushQueue t])

/-- `self.atomic_unlock_and_block.lock()`. -/
def guardAcquire (s : Sys) : Sys × List Ev :=
  ({ s with guardHeld := true }, [.acquireGuard])

/-- `mutex.unlock()` — the real `Mutex::unlock`; if it hands the mutex to a
queued waiter, that task is unblocked (removed from the blocked set). -/
def mutexRelease (s : Sys) : Sys × List Ev :=
  let r := Mutex.unlock s.mutex
  ({ s with
      mutex := r.1,
      blocked := match r.2 with
        | none => s.blocked
        | some w => s.blocked.erase w },
   [.unlockMutex])

/-- `current_task.block()` — mark the caller blocked. -/
def blockSelf (t : Nat) (s : Sys) : Sys × List Ev :=
  ({ s with blocked := s.blocked ++ [t] }, [.blockTask t])

/-- `drop(atomic_unlock_and_block)`. -/
def guardRelease (s : Sys) : Sys × List Ev :=
  ({ s with guardHeld := false }, [.releaseGuard])

/-- `task::yield_now()` — cooperative suspension; no state effect of its
own. -/
def yieldStep (s : Sys) : Sys × List Ev :=
  (s, [.yieldNow])

/-- Sequencing of steps, accumulating the emitted events. -/
def andThen (r : Sys × List Ev) (f : Sys → Sys × List Ev) : Sys × List Ev :=
  let r2 := f r.1
  (r2.1, r.2 ++ r2.2)

/-- `Condvar::wait` up to and including the `yield_now()` suspension, by
task `t`: the source statements in source order. -/
def wait_enter (t : Nat) (s : Sys) : Sys × List Ev :=
  andThen (andThen (andThen (andThen (andThen
    (pushSelf t s) guardAcquire) mutexRelease) (blockSelf t)) guardRelease) yieldStep

/-- The tail of `Condvar::wait` after the waiter is resumed:
`unsafe { mutex.lock() }` — the real `Mutex::lock` by the caller (fast path
acquires; slow path re-queues the caller on the mutex's FIFO queue until
ownership is transferred to it). -/
def wait_resume (t : Nat) (s : Sys) : Sys × List Ev :=
  let r := Mutex.lock t s.mutex
  ({ s with
      mutex := r.2,
      blocked := if r.1 then s.blocked else s.blocked ++ [t] },
   [.lockMutex])

end Condvar

/-! ## Claims about the condition variable -/

/-- C7: `Condvar::notify_one` removes exactly the oldest waiter (the queue
head) and unblocks it, returning `true`, when the queue is non-empty, and
returns `false` leaving the queue empty when no task is waiting;
`Condvar::notify_all` unblocks every queued task in FIFO queue order and
leaves the queue empty. -/
theorem condvar_notify_spec (q : List Nat) :
    (q = [] → Condvar.notify_one q = (false, none, [])) ∧
    (∀ t ts, q = t :: ts → Condvar.notify_one q = (true, some t, ts)) ∧
    Condvar.notify_all q = (q, []) := by
  refine ⟨?_, ?_, ?_⟩
  · intro h; subst h; rfl
  · intro t ts h; subst h; rfl
  · induction q with
    | nil => rfl
    | cons t ts ih => simp [Condvar.notify_all, ih]

/-- Witness for C7 at a concrete queue `[4, 5, 6]`: `notify_one` wakes the
oldest waiter `4`; `notify_all` wakes `4, 5, 6` in order and empties the
queue. -/
theorem condvar_notify_spec_witness :
    Condvar.notify_one [4, 5, 6] = (true, some 4, [5, 6]) ∧
    Condvar.notify_all [4, 5, 6] = ([4, 5, 6], []) :=
  ⟨(condvar_notify_spec [4, 5, 6]).2.1 4 [5, 6] rfl,
   (condvar_notify_spec [4, 5, 6]).2.2⟩

/-- C9: `Condvar::wait_timeout` is `todo!()` — it panics on every input and
never returns a value. -/
theorem condvar_wait_timeout_never_returns (m : Mutex.State) (q : List Nat) (dur : Nat) :
    Condvar.wait_timeout m q dur = none :=
  rfl

/-! ## Reader-writer lock (`rwlock.rs`) -/

namespace RwLock

/-- `enum State { Unlocked, Reading(usize), Writing }` — the
spinlock-protected state of the reader-writer lock. -/
inductive State where
  | Unlocked
  | Reading (count : Nat)
  | Writing
deriving Repr, DecidableEq

/-- `State::inc_readers`: `Unlocked → Reading(1)` returning `true`;
`Reading(count) → Reading(count + 1)` returning `true`; fails (state
unchanged) in `Writing`. -/
def State.inc_readers : State → Bool × State
  | .Unlocked => (true, .Reading 1)
  | .Reading count => (true, .Reading (count + 1))
  | .Writing => (false, .Writing)

/-- `State::inc_writers`: `Unlocked → Writing` returning `true`; fails
(state unchanged) in `Reading(_)` and `Writing`. -/
def State.inc_writers : State → Bool × State
  | .Unlocked => (true, .Writing)
  | .Reading count => (false, .Reading count)
  | .Writing => (false, .Writing)

/-- `State::dec_readers`: in `Reading(count)`, `count -= 1`; if the count
reached zero, the state becomes `Unlocked`; the returned `Bool` is whether
this caller was the last reader.  The explicit `panic!` in `Unlocked` and
`Writing` is modelled as `none`.  `count - 1` is `Nat` subtraction; it
coincides with the source's `usize` decrement on every state where
`count ≥ 1`, which covers all reachable states (see the reachability
invariant below). -/
def State.dec_readers : State → Option (Bool × State)
  | .Reading count =>
    let c := count - 1
    if c = 0 then some (true, .Unlocked) else some (false, .Reading c)
  | .Unlocked => none
  | .Writing => none

/-- `State::dec_writers`: `Writing → Unlocked`; the explicit `panic!` in
`Unlocked` and `Reading(_)` is modelled as `none`. -/
def State.dec_writers : State → Option State
  | .Writing => some .Unlocked
  | .Unlocked => none
  | .Reading _ => none

/-- States reachable from the initial `Unlocked` state by any sequence of
`inc_readers`, `inc_writers` and `dec_readers`, where `dec_readers` is
applied only when it does not panic (failed `inc_*` attempts leave the
state unchanged and are included). -/
inductive Reach : State → Prop where
  | init : Reach .Unlocked
  | incR {s s' : State} {b : Bool} :
      Reach s → s.inc_readers = (b, s') → Reach s'
  | incW {s s' : State} {b : Bool} :
      Reach s → s.inc_writers = (b, s') → Reach s'
  | decR {s s' : State} {z : Bool} :
      Reach s → s.dec_readers = some (z, s') → Reach s'

end RwLock

/-- `struct RwLock { state, readers: Condvar, writers: Condvar }`.  The
two condition variables are modelled by their wait queues; a task on one
of the queues is parked (blocked) on that condvar. -/
structure RwLock where
  state : RwLock.State
  readers : List Nat
  writers : List Nat
deriving Repr, DecidableEq

namespace RwLock

/-- One iteration of the `RwLock::read` acquire loop by task `t`, under
the state spinlock: attempt `inc_readers`; on success the lock is held
shared; on failure the source calls `self.readers.wait_spin(...)` — the
task is pushed onto the `readers` condvar queue and blocked, to retry the
transition after it is next woken. -/
def read (t : Nat) (l : RwLock) : RwLock × Bool :=
  let r := l.state.inc_readers
  if r.1 then
    ({ l with state := r.2 }, true)
  else
    ({ l with state := r.2, readers := l.readers ++ [t] }, false)

/-- One iteration of the `RwLock::write` acquire loop by task `t`, under
the state spinlock: attempt `inc_writers`; on success the lock is held
exclusively; on failure the source calls `self.readers.wait_spin(...)` —
the task is pushed onto the `readers` condvar queue (not `writers`) and
blocked, to retry the transition after it is next woken. -/
def write (t : Nat) (l : RwLock) : RwLock × Bool :=
  let r := l.state.inc_writers
  if r.1 then
    ({ l with state := r.2 }, true)
  else
    ({ l with state := r.2, readers := l.readers ++ [t] }, false)

/-- `RwLock::read_unlock`, under the state spinlock: `dec_readers`; if the
caller was the last reader, `self.writers.notify_one()`.  Returns the new
lock state and the tasks unblocked (`none` models the `dec_readers`
panic). -/
def read_unlock (l : RwLock) : Option (RwLock × List Nat) :=
  match l.state.dec_readers with
  | none => none
  | some (zero, s') =>
    if zero then
      let r := Condvar.notify_one l.writers
      some ({ l with state := s', writers := r.2.2 }, r.2.1.toList)
    else
      some ({ l with state := s' }, [])

/-- `RwLock::write_unlock`, under the state spinlock: `dec_writers`; then
`self.writers.notify_one()`, and only if that woke nobody,
`self.readers.notify_all()`.  Returns the new lock state and the tasks
unblocked in wake order (`none` models the `dec_writers` panic). -/
def write_unlock (l : RwLock) : Option (RwLock × List Nat) :=
  match l.state.dec_writers with
  | none => none
  | some s' =>
    let r := Condvar.notify_one l.writers
    if r.1 then
      some ({ l with state := s', writers := r.2.2 }, r.2.1.toList)
    else
      let a := Condvar.notify_all l.readers
      some ({ l with state := s', readers := a.2, writers := r.2.2 }, a.1)

end RwLock

/-! ## Claims about the reader-writer lock -/

/-- C5: the `State` operations implement the specified transition table:
`inc_readers` sends `Unlocked` to `Reading 1` and `Reading n` to
`Reading (n+1)`, both successfully, and fails leaving `Writing` unchanged;
`inc_writers` sends `Unlocked` to `Writing` successfully and fails leaving
`Reading n` and `Writing` unchanged; `dec_readers` sends `Reading 1` to
`Unlocked` and `Reading n` (`n ≥ 2`) to `Reading (n-1)`, and panics in
`Unlocked` and `Writing`; `dec_writers` sends `Writing` to `Unlocked` and
panics in `Unlocked` and `Reading n`. -/
theorem rwlock_state_table :
    (RwLock.State.inc_readers .Unlocked = (true, .Reading 1)) ∧
    (∀ n, RwLock.State.inc_readers (.Reading n) = (true, .Reading (n + 1))) ∧
    (RwLock.State.inc_readers .Writing = (false, .Writing)) ∧
    (RwLock.State.inc_writers .Unlocked = (true, .Writing)) ∧
    (∀ n, RwLock.State.inc_writers (.Reading n) = (false, .Reading n)) ∧
    (RwLock.State.inc_writers .Writing = (false, .Writing)) ∧
    (RwLock.State.dec_readers (.Reading 1) = some (true, .Unlocked)) ∧
    (RwLock.State.dec_readers .Unlocked = none) ∧
    (RwLock.State.dec_readers .Writing = none) ∧
    (RwLock.State.dec_writers .Writing = some .Unlocked) ∧
    (RwLock.State.dec_writers .Unlocked = none) ∧
    (∀ n, RwLock.State.dec_writers (.Reading n) = none) ∧
    (∀ n, 2 ≤ n →
      RwLock.State.dec_readers (.Reading n) = some (false, .Reading (n - 1))) := by
  refine ⟨rfl, fun n => rfl, rfl, rfl, fun n => rfl, rfl, rfl, rfl, rfl, rfl, rfl,
    fun n => rfl, ?_⟩
  intro n hn
  have h1 : n - 1 ≠ 0 := by omega
  simp [RwLock.State.dec_readers, h1]

/-- Witness for C5: decrementing from `Reading 2` leaves `Reading 1` with
"last reader" reported as false. -/
theorem rwlock_state_table_witness :
    RwLock.State.dec_readers (.Reading 2) = some (false, .Reading 1) :=
  rwlock_state_table.2.2.2.2.2.2.2.2.2.2.2.2 2 (by norm_num)

/-- Helper for C6: the `Reading` count is positive in every reachable
state. -/
theorem reach_reading_pos {s : RwLock.State} (h : RwLock.Reach s) :
    ∀ n, s = .Reading n → 1 ≤ n := by
  induction h with
  | init => intro n hn; cases hn
  | incR hr he ih =>
    intro n hn
    rename_i s s' b
    cases s with
    | Unlocked =>
      simp [RwLock.State.inc_readers] at he
      rw [← he.2] at hn
      cases hn
      omega
    | Reading c =>
      simp [RwLock.State.inc_readers] at he
      rw [← he.2] at hn
      cases hn
      omega
    | Writing =>
      simp [RwLock.State.inc_readers] at he
      rw [← he.2] at hn
      cases hn
  | incW hr he ih =>
    intro n hn
    rename_i s s' b
    cases s with
    | Unlocked =>
      simp [RwLock.State.inc_writers] at he
      rw [← he.2] at hn
      cases hn
    | Reading c =>
      simp [RwLock.State.inc_writers] at he
      rw [← he.2] at hn
      cases hn
      exact ih _ rfl
    | Writing =>
      simp [RwLock.State.inc_writers] at he
      rw [← he.2] at hn
      cases hn
  | decR hr he ih =>
    intro n hn
    rename_i s s' z
    cases s with
    | Unlocked => simp [RwLock.State.dec_readers] at he
    | Reading c =>
      by_cases hc : c - 1 = 0
      · simp [RwLock.State.dec_readers, hc] at he
        rw [← he.2] at hn
        cases hn
      · simp [RwLock.State.dec_readers, hc] at he
        rw [← he.2] at hn
        cases hn
        omega
    | Writing => simp [RwLock.State.dec_readers] at he

/-- C6: in every state reachable from `Unlocked` by `inc_readers`,
`inc_writers` and non-panicking `dec_readers`, `Reading n` implies
`n ≥ 1` — `Reading 0` is never observed — and `dec_readers` from a
reachable `Reading n` yields `Unlocked` exactly when this call makes the
count zero, i.e. exactly when `n = 1`. -/
theorem rwlock_reading_invariant (s : RwLock.State) (h : RwLock.Reach s) :
    (∀ n, s = .Reading n → 1 ≤ n) ∧
    (∀ n, s = .Reading n →
      ((∃ z, RwLock.State.dec_readers s = some (z, .Unlocked)) ↔ n = 1)) := by
  refine ⟨reach_reading_pos h, ?_⟩
  intro n hn
  subst hn
  have hpos : 1 ≤ n := reach_reading_pos h n rfl
  constructor
  · rintro ⟨z, hz⟩
    by_cases hc : n - 1 = 0
    · omega
    · simp [RwLock.State.dec_readers, hc] at hz
  · intro h1
    subst h1
    exact ⟨true, rfl⟩

/-- Witness for C6: `Reading 1` is reachable (one successful `read`), its
count is positive, and `dec_readers` from it reaches `Unlocked`. -/
theorem rwlock_reading_invariant_witness :
    (1 : Nat) ≤ 1 ∧
    ((∃ z, RwLock.State.dec_readers (.Reading 1) = some (z, .Unlocked)) ↔ 1 = 1) := by
  have hreach : RwLock.Reach (.Reading 1) :=
    RwLock.Reach.incR RwLock.Reach.init rfl
  have h := rwlock_reading_invariant (.Reading 1) hreach
  exact ⟨h.1 1 rfl, h.2 1 rfl⟩

/-- C1 (refuted by the code): a failed acquisition attempt parks the caller
on the `readers` condition variable, not on `writers` as the specification
states: `write` by task `7` against `Reading 1` and `read` by task `3`
against `Writing` both fail and push the caller onto the `readers` queue,
leaving the `writers` queue empty.  Consequently `read_unlock`'s
`writers.notify_one()` can never find the waiting writer. -/
theorem rwlock_parks_on_readers_condvar :
    RwLock.write 7 ⟨.Reading 1, [], []⟩ = (⟨.Reading 1, [7], []⟩, false) ∧
    RwLock.read 3 ⟨.Writing, [], []⟩ = (⟨.Writing, [3], []⟩, false) :=
  ⟨rfl, rfl⟩

/-- C2 (refuted by the code): execution in which a writer is waiting at the
moment the lock becomes free, yet the next successful acquirer is a reader.
Reader `0` acquires; writer `1` fails `inc_writers` and parks (on the
`readers` condvar, since both `read` and `write` wait there); reader `0`
releases the lock — the state becomes `Unlocked` with writer `1` still
waiting, and the wake list is empty because `writers.notify_one()` finds
an empty `writers` queue; then reader `2` acquires the free lock while the
writer is still parked. -/
theorem rwlock_writer_preference_fails :
    RwLock.read 0 ⟨.Unlocked, [], []⟩ = (⟨.Reading 1, [], []⟩, true) ∧
    RwLock.write 1 ⟨.Reading 1, [], []⟩ = (⟨.Reading 1, [1], []⟩, false) ∧
    RwLock.read_unlock ⟨.Reading 1, [1], []⟩ = some (⟨.Unlocked, [1], []⟩, []) ∧
    RwLock.read 2 ⟨.Unlocked, [1], []⟩ = (⟨.Reading 1, [1], []⟩, true) :=
  ⟨rfl, rfl, rfl, rfl⟩

/-- C4: `Condvar::wait` by a task `t` that holds the associated mutex
performs exactly, in order: push `t` onto the condvar queue, acquire the
`atomic_unlock_and_block` guard, unlock the associated mutex, mark `t`
blocked, release the guard, and yield; and on resumption it re-acquires the
associated mutex (its single step is the mutex lock; when the mutex is free
at that point the fast path succeeds and the caller holds it again on
return). -/
theorem condvar_wait_spec (t : Nat) (s : Condvar.Sys)
    (h : s.mutex.is_locked = true) :
    (Condvar.wait_enter t s).2 =
      [.pushQueue t, .acquireGuard, .unlockMutex, .blockTask t,
       .releaseGuard, .yieldNow] ∧
    (Condvar.wait_enter t s).1.cvQueue = s.cvQueue ++ [t] ∧
    t ∈ (Condvar.wait_enter t s).1.blocked ∧
    (Condvar.wait_enter t s).1.guardHeld = false ∧
    (s.mutex.queue = [] → (Condvar.wait_enter t s).1.mutex.is_locked = false) ∧
    (∀ s2 : Condvar.Sys, s2.mutex.is_locked = false →
      (Condvar.wait_resume t s2).2 = [.lockMutex] ∧
      (Condvar.wait_resume t s2).1.mutex.is_locked = true ∧
      (Mutex.lock t s2.mutex).1 = true) := by
  refine ⟨rfl, rfl, ?_, rfl, ?_, ?_⟩
  · simp [Condvar.wait_enter, Condvar.andThen, Condvar.pushSelf,
      Condvar.guardAcquire, Condvar.mutexRelease, Condvar.blockSelf,
      Condvar.guardRelease, Condvar.yieldStep]
  · intro hq
    simp [Condvar.wait_enter, Condvar.andThen, Condvar.pushSelf,
      Condvar.guardAcquire, Condvar.mutexRelease, Condvar.blockSelf,
      Condvar.guardRelease, Condvar.yieldStep, Mutex.unlock, hq]
  · intro s2 h2
    refine ⟨rfl, ?_, ?_⟩ <;>
      simp [Condvar.wait_resume, Mutex.lock, h2]

/-- Witness for C4: task `1` waits while holding the mutex
`{is_locked := true, queue := []}`; the emitted step sequence is exactly
the specified one, and on resumption with the mutex free the re-lock
succeeds. -/
theorem condvar_wait_spec_witness :
    (Condvar.wait_enter 1 ⟨[], false, ⟨true, []⟩, []⟩).2 =
      [.pushQueue 1, .acquireGuard, .unlockMutex, .blockTask 1,
       .releaseGuard, .yieldNow] ∧
    (Condvar.wait_resume 1 ⟨[1], false, ⟨false, []⟩, [1]⟩).1.mutex.is_locked = true := by
  have h := condvar_wait_spec 1 ⟨[], false, ⟨true, []⟩, []⟩ rfl
  exact ⟨h.1, (h.2.2.2.2.2 ⟨[1], false, ⟨false, []⟩, [1]⟩ rfl).2.1⟩

end Theseus
